import Mathlib

/-
Verification of the node-resolution, validation and port-registry layer of
the baremetal operator (pkg/provisioner/ironic/node.go) together with the
BMCEventSubscription admission hooks (webhook file).

The remote Ironic service (gophercloud client) is modelled as a record of
response functions (`ServiceClient`): each field describes what one remote
endpoint answers for a given argument.  Go's `(value, error)` pairs are
embedded as `Option value × Option GoError`.  Functions that perform remote
node lookups additionally return the trace of node IDs they fetched, so
that "no remote call is issued" and "lookups happen in this order" are
expressible.  Logging, the `updater` field and the logr.Logger argument
carry no data relevant to the results and are omitted.
-/

namespace BaremetalOperator

/-- A Go error value.  `service` is an error produced by the remote client,
`errorf` a fresh message built with fmt.Errorf without %w, and `wrapped` a
fmt.Errorf("...: %w") wrapping of an inner error with a context message. -/
inductive GoError where
  | service (msg : String)
  | errorf (msg : String)
  | wrapped (msg : String) (inner : GoError)
  deriving Repr, DecidableEq

/-- The payload of nodes.Node that the verified code reads. -/
structure IronicNode where
  uuid : String
  name : String
  deriving Repr, DecidableEq

/-- A port record: the owning node (node_uuid) and the MAC address. -/
structure Port where
  nodeUUID : String
  address : String
  deriving Repr, DecidableEq

/-- One outcome of nodes.Validate: a pass/fail flag and a reason string. -/
structure ValidationOutcome where
  result : Bool
  reason : String
  deriving Repr, DecidableEq

/-- The response of nodes.Validate: independent Boot and Deploy outcomes. -/
structure NodeValidation where
  boot : ValidationOutcome
  deploy : ValidationOutcome
  deriving Repr, DecidableEq

/-- Result of nodes.Get(client, id).ExtractInto: the node on success,
a gophercloud.ErrDefault404 (modelled as `notFound`), or another error. -/
inductive NodeGetResult where
  | ok (node : IronicNode)
  | notFound
  | err (e : GoError)
  deriving Repr, DecidableEq

/-- An opaque handle to the pages returned by a pager's AllPages(). -/
abbrev PagerPages := Nat

/-- The remote service as seen by the verified code: responses of the node
get endpoint, the node validate endpoint, the port list endpoint filtered
by MAC address or by owning node, and the page operations ExtractPorts and
IsEmpty (each of which can fail independently, as in gophercloud). -/
structure ServiceClient where
  nodesGet : String → NodeGetResult
  nodesValidate : String → Except GoError NodeValidation
  portsAllPagesByAddress : String → Except GoError PagerPages
  portsAllPagesByNodeUUID : String → Except GoError PagerPages
  extractPorts : PagerPages → Except GoError (List Port)
  pagesIsEmpty : PagerPages → Except GoError Bool

/-- The local Node wrapper.  In Go it embeds nodes.Node together with a
logger, the client and an updater; only the payload matters here. -/
structure Node where
  node : IronicNode
  deriving Repr, DecidableEq

/-- GetNode returns a node by its ID or nil.  Empty ID: empty result, no
error, no remote call.  404: empty result, no error.  Other error: wrapped
with the ID.  The second component is the trace of node IDs fetched. -/
def GetNode (client : ServiceClient) (nodeID : String) :
    (Option Node × Option GoError) × List String :=
  if nodeID = "" then
    ((none, none), [])
  else
    match client.nodesGet nodeID with
    | .ok n => ((some ⟨n⟩, none), [nodeID])
    | .notFound => ((none, none), [nodeID])
    | .err e =>
        ((none, some (.wrapped ("failed to find node by ID " ++ nodeID) e)),
         [nodeID])

/-- AssertNode delegates to GetNode; the Go code then replaces the error
with a "not found" message under the condition `node == nil && err != nil`
(sic) before returning the pair unchanged otherwise. -/
def AssertNode (client : ServiceClient) (nodeID : String) :
    (Option Node × Option GoError) × List String :=
  let r := GetNode client nodeID
  let node := r.1.1
  let err := r.1.2
  let err2 :=
    if node.isNone && err.isSome then
      some (.errorf ("failed to find node by ID " ++ nodeID ++ ": not found"))
    else
      err
  ((node, err2), r.2)

/-- FindNodeByNames tries each candidate name in order via GetNode,
returning the first match; a lookup error is wrapped with the name and
returned immediately; no match at all gives an empty result, no error. -/
def FindNodeByNames (client : ServiceClient) (names : List String) :
    (Option Node × Option GoError) × List String :=
  match names with
  | [] => ((none, none), [])
  | nodeName :: rest =>
    let r := GetNode client nodeName
    match r.1.2 with
    | some e =>
        ((none, some (.wrapped ("failed to find node by name " ++ nodeName) e)),
         r.2)
    | none =>
      match r.1.1 with
      | some node => ((some node, none), r.2)
      | none =>
        let rr := FindNodeByNames client rest
        (rr.1, r.2 ++ rr.2)

/-- findNodeIDByMAC lists ports filtered by MAC address (projecting
node_uuid), extracts them, and returns the first port's owning node ID, or
"" when no port matches; either page step's error is returned unwrapped. -/
def findNodeIDByMAC (client : ServiceClient) (macAddress : String) :
    String × Option GoError :=
  match client.portsAllPagesByAddress macAddress with
  | .error e => ("", some e)
  | .ok pages =>
    match client.extractPorts pages with
    | .error e => ("", some e)
    | .ok portList =>
      match portList with
      | [] => ("", none)
      | p :: _ => (p.nodeUUID, none)

/-- FindNodeByMAC resolves the MAC to a node ID and then resolves the ID
via GetNode; an empty ID or an error from the first stage short-circuits. -/
def FindNodeByMAC (client : ServiceClient) (macAddress : String) :
    (Option Node × Option GoError) × List String :=
  let r := findNodeIDByMAC client macAddress
  if r.1 = "" || r.2.isSome then
    ((none, r.2), [])
  else
    GetNode client r.1

/-- Validate runs nodes.Validate on the node's UUID.  An error of the call
itself is returned unwrapped with a nil failures list; otherwise the
failing outcomes' reasons are collected, Boot first, then Deploy. -/
def Node.Validate (client : ServiceClient) (node : Node) :
    List String × Option GoError :=
  match client.nodesValidate node.node.uuid with
  | .error e => ([], some e)
  | .ok validateResult =>
    let f1 : List String :=
      if validateResult.boot.result then [] else [validateResult.boot.reason]
    let f2 : List String :=
      if validateResult.deploy.result then [] else [validateResult.deploy.reason]
    (f1 ++ f2, none)

/-- HasPorts lists ports filtered by the node's UUID, pages through all of
them and checks emptiness; each step's failure is returned wrapped. -/
def Node.HasPorts (client : ServiceClient) (node : Node) :
    Bool × Option GoError :=
  match client.portsAllPagesByNodeUUID node.node.uuid with
  | .error e => (false, some (.wrapped "failed to page over list of ports" e))
  | .ok allPages =>
    match client.pagesIsEmpty allPages with
    | .error e => (false, some (.wrapped "failed to check port list status" e))
    | .ok empty => if empty then (false, none) else (true, none)

/-- The subscription resource; only its name is read by the hooks. -/
structure BMCEventSubscription where
  name : String
  deriving Repr, DecidableEq

/-- The old object handed to the update hook (runtime.Object). -/
structure RuntimeObject where
  kind : String
  deriving Repr, DecidableEq

/-- ValidateUpdate unconditionally rejects: subscriptions are immutable. -/
def BMCEventSubscription.ValidateUpdate (s : BMCEventSubscription)
    (old : RuntimeObject) : Option GoError :=
  some (.errorf "subscriptions cannot be updated, please recreate it")

/-- ValidateDelete unconditionally allows. -/
def BMCEventSubscription.ValidateDelete (s : BMCEventSubscription) :
    Option GoError :=
  none

/-
Concrete test environments used by witnesses and concrete-instance
conjuncts.  `failAll` answers every remote endpoint with an error, so a
fixture only overrides the endpoints the scenario needs.
-/

/-- A client whose every endpoint fails; fixtures override parts of it. -/
def failAll : ServiceClient :=
  { nodesGet := fun _ => .err (.service "unused")
    nodesValidate := fun _ => .error (.service "unused")
    portsAllPagesByAddress := fun _ => .error (.service "unused")
    portsAllPagesByNodeUUID := fun _ => .error (.service "unused")
    extractPorts := fun _ => .error (.service "unused")
    pagesIsEmpty := fun _ => .error (.service "unused") }

/-- The node named "b" of the FindNodeByNames scenario. -/
def nodeB : IronicNode := ⟨"uuid-b", "b"⟩

/-- A remote service where only the node named "b" exists. -/
def clientOnlyB : ServiceClient :=
  { failAll with
    nodesGet := fun id => if id = "b" then .ok nodeB else .notFound }

/-- The node N of the FindNodeByMAC scenario. -/
def nodeN : IronicNode := ⟨"uuid-n", "n"⟩

/-- A remote service where the MAC 52:54:00:aa:bb:cc is registered to
exactly one port owned by node N, and node N exists. -/
def clientMacN : ServiceClient :=
  { failAll with
    nodesGet := fun id => if id = "uuid-n" then .ok nodeN else .notFound
    portsAllPagesByAddress := fun mac =>
      if mac = "52:54:00:aa:bb:cc" then .ok 0 else .error (.service "unused")
    extractPorts := fun pages =>
      if pages = 0 then .ok [⟨"uuid-n", "52:54:00:aa:bb:cc"⟩]
      else .error (.service "unused") }

/-- A remote service where the MAC is registered to a port whose owning
node ID is stale: the node lookup reports 404. -/
def clientStalePort : ServiceClient :=
  { failAll with
    nodesGet := fun _ => .notFound
    portsAllPagesByAddress := fun mac =>
      if mac = "52:54:00:aa:bb:cc" then .ok 0 else .error (.service "unused")
    extractPorts := fun pages =>
      if pages = 0 then .ok [⟨"uuid-gone", "52:54:00:aa:bb:cc"⟩]
      else .error (.service "unused") }

/-- A remote service where every node lookup reports 404. -/
def clientAbsent : ServiceClient :=
  { failAll with nodesGet := fun _ => .notFound }

/-- A remote service whose validation answers: Boot fails with reason
"no image", Deploy passes. -/
def clientNoImage : ServiceClient :=
  { failAll with
    nodesValidate := fun _ => .ok ⟨⟨false, "no image"⟩, ⟨true, ""⟩⟩ }

/-- A remote service whose validation call itself fails. -/
def clientValidateDown : ServiceClient :=
  { failAll with
    nodesValidate := fun _ => .error (.service "connection refused") }

/-- A remote service where node "uuid-n" has one registered port and node
"uuid-b" has none, with coherent page handles. -/
def clientPorts : ServiceClient :=
  { failAll with
    portsAllPagesByNodeUUID := fun id =>
      if id = "uuid-n" then .ok 1
      else if id = "uuid-b" then .ok 2
      else .error (.service "unused")
    extractPorts := fun pages =>
      if pages = 1 then .ok [⟨"uuid-n", "52:54:00:aa:bb:cc"⟩]
      else if pages = 2 then .ok []
      else .error (.service "unused")
    pagesIsEmpty := fun pages =>
      if pages = 1 then .ok false
      else if pages = 2 then .ok true
      else .error (.service "unused") }

/-
Theorems.
-/

/-- C2: GetNode returns an empty result and no error for an empty ID
(issuing no remote call) and when the remote service reports 404; any
other remote failure is returned wrapped with the ID; on success the node
is returned with no error.  The trace component records the remote node
lookups performed. -/
theorem getNode_spec (client : ServiceClient) (nodeID : String) :
    (nodeID = "" → GetNode client nodeID = ((none, none), [])) ∧
    (nodeID ≠ "" → client.nodesGet nodeID = .notFound →
      GetNode client nodeID = ((none, none), [nodeID])) ∧
    (∀ e : GoError, nodeID ≠ "" → client.nodesGet nodeID = .err e →
      GetNode client nodeID =
        ((none, some (.wrapped ("failed to find node by ID " ++ nodeID) e)),
         [nodeID])) ∧
    (∀ n : IronicNode, nodeID ≠ "" → client.nodesGet nodeID = .ok n →
      GetNode client nodeID = ((some ⟨n⟩, none), [nodeID])) := by
  refine ⟨fun h => ?_, fun h hnf => ?_, fun e h he => ?_, fun n h hn => ?_⟩
  · simp only [GetNode, h, reduceIte]
  · simp only [GetNode, if_neg h, hnf]
  · simp only [GetNode, if_neg h, he]
  · simp only [GetNode, if_neg h, hn]

/-- Witness for C2, at the concrete input of an empty ID: no remote call,
empty result, no error. -/
theorem getNode_spec_witness :
    GetNode clientOnlyB "" = ((none, none), []) :=
  (getNode_spec clientOnlyB "").1 rfl

/-- C1 is false of the code: the guard in AssertNode reads
`node == nil && err != nil`, so when GetNode returns an empty result with
no error (here: the remote service reports 404 for "node-1"), AssertNode
returns a nil Node together with a nil error instead of synthesizing the
"not found" error its own doc comment promises. -/
theorem assertNode_notFound_returns_nil_nil :
    AssertNode clientAbsent "node-1" = ((none, none), ["node-1"]) := by
  decide

/-- C3: FindNodeByNames looks names up in list order via GetNode; a lookup
error is wrapped with the name and returned immediately, without any later
lookup; the first node found is returned without any later lookup; a miss
prepends its lookup trace and continues with the rest; when every name
misses the result is empty with no error; and on the concrete scenario
where only "b" exists, names ["a","b","c"] yield the node "b" after
looking up exactly "a" then "b". -/
theorem findNodeByNames_spec :
    (∀ client : ServiceClient, FindNodeByNames client [] = ((none, none), [])) ∧
    (∀ (client : ServiceClient) (nodeName : String) (rest : List String)
        (e : GoError),
      (GetNode client nodeName).1.2 = some e →
      FindNodeByNames client (nodeName :: rest) =
        ((none, some (.wrapped ("failed to find node by name " ++ nodeName) e)),
         (GetNode client nodeName).2)) ∧
    (∀ (client : ServiceClient) (nodeName : String) (rest : List String)
        (n : Node),
      (GetNode client nodeName).1 = (some n, none) →
      FindNodeByNames client (nodeName :: rest) =
        ((some n, none), (GetNode client nodeName).2)) ∧
    (∀ (client : ServiceClient) (nodeName : String) (rest : List String),
      (GetNode client nodeName).1 = (none, none) →
      FindNodeByNames client (nodeName :: rest) =
        ((FindNodeByNames client rest).1,
         (GetNode client nodeName).2 ++ (FindNodeByNames client rest).2)) ∧
    (∀ (client : ServiceClient) (names : List String),
      (∀ n ∈ names, (GetNode client n).1 = (none, none)) →
      (FindNodeByNames client names).1 = (none, none)) ∧
    FindNodeByNames clientOnlyB ["a", "b", "c"] =
      ((some ⟨nodeB⟩, none), ["a", "b"]) := by
  refine ⟨fun _ => rfl, fun client nodeName rest e he => ?_,
    fun client nodeName rest n hn => ?_, fun client nodeName rest hm => ?_,
    fun client names hall => ?_, by decide⟩
  · simp only [FindNodeByNames, he]
  · have h2 : (GetNode client nodeName).1.2 = none := by rw [hn]
    have h1 : (GetNode client nodeName).1.1 = some n := by rw [hn]
    simp only [FindNodeByNames, h2, h1]
  · have h2 : (GetNode client nodeName).1.2 = none := by rw [hm]
    have h1 : (GetNode client nodeName).1.1 = none := by rw [hm]
    simp only [FindNodeByNames, h2, h1]
  · induction names with
    | nil => rfl
    | cons nodeName rest ih =>
      have hm := hall nodeName (List.mem_cons_self nodeName rest)
      have h2 : (GetNode client nodeName).1.2 = none := by rw [hm]
      have h1 : (GetNode client nodeName).1.1 = none := by rw [hm]
      simp only [FindNodeByNames, h2, h1]
      exact ih (fun n hn => hall n (List.mem_cons_of_mem _ hn))

/-- Witness for C3, using the first-match conjunct at the concrete input:
with only "b" existing, ["b","c"] returns the node "b" with trace ["b"]. -/
theorem findNodeByNames_spec_witness :
    FindNodeByNames clientOnlyB ["b", "c"] = ((some ⟨nodeB⟩, none), ["b"]) :=
  findNodeByNames_spec.2.2.1 clientOnlyB "b" ["c"] ⟨nodeB⟩ (by decide)

/-- C4: FindNodeByMAC first queries the port index by MAC; an error of the
paging or of the extraction is returned as the error; zero matching ports
give an empty result with no error; one or more matching ports make the
result that of GetNode on the first port's owning-node ID; and on the
concrete scenario of a MAC registered to exactly one port of node N, node
N is returned. -/
theorem findNodeByMAC_spec :
    (∀ (client : ServiceClient) (mac : String) (e : GoError),
      client.portsAllPagesByAddress mac = .error e →
      FindNodeByMAC client mac = ((none, some e), [])) ∧
    (∀ (client : ServiceClient) (mac : String) (pages : PagerPages)
        (e : GoError),
      client.portsAllPagesByAddress mac = .ok pages →
      client.extractPorts pages = .error e →
      FindNodeByMAC client mac = ((none, some e), [])) ∧
    (∀ (client : ServiceClient) (mac : String) (pages : PagerPages),
      client.portsAllPagesByAddress mac = .ok pages →
      client.extractPorts pages = .ok [] →
      FindNodeByMAC client mac = ((none, none), [])) ∧
    (∀ (client : ServiceClient) (mac : String) (pages : PagerPages)
        (p : Port) (ps : List Port),
      client.portsAllPagesByAddress mac = .ok pages →
      client.extractPorts pages = .ok (p :: ps) →
      FindNodeByMAC client mac = GetNode client p.nodeUUID) ∧
    FindNodeByMAC clientMacN "52:54:00:aa:bb:cc" =
      ((some ⟨nodeN⟩, none), ["uuid-n"]) := by
  refine ⟨fun client mac e he => ?_, fun client mac pages e hp he => ?_,
    fun client mac pages hp hx => ?_, fun client mac pages p ps hp hx => ?_,
    by decide⟩
  · simp only [FindNodeByMAC, findNodeIDByMAC, he, Option.isSome_some,
      Bool.or_true, if_pos]
  · simp only [FindNodeByMAC, findNodeIDByMAC, hp, he, Option.isSome_some,
      Bool.or_true, if_pos]
  · simp only [FindNodeByMAC, findNodeIDByMAC, hp, hx]
    rfl
  · simp only [FindNodeByMAC, findNodeIDByMAC, hp, hx, Option.isSome_none,
      Bool.or_false]
    by_cases hu : p.nodeUUID = ""
    · simp [hu, GetNode]
    · simp [hu]

/-- Witness for C4, using the first conjunct at a concrete input: a failed
port query is surfaced as the error. -/
theorem findNodeByMAC_spec_witness :
    FindNodeByMAC failAll "52:54:00:00:00:00" =
      ((none, some (.service "unused")), []) :=
  findNodeByMAC_spec.1 failAll "52:54:00:00:00:00" (.service "unused") rfl

/-- C5: when the remote validation call succeeds, Validate returns as data
(with a nil error) the Boot failure reason if Boot failed followed by the
Deploy failure reason if Deploy failed, and nothing for passing outcomes;
on the concrete response where Boot fails with "no image" and Deploy
passes, the result is exactly ["no image"] with no error. -/
theorem validate_failures_spec :
    (∀ (client : ServiceClient) (node : Node) (vr : NodeValidation),
      client.nodesValidate node.node.uuid = .ok vr →
      Node.Validate client node =
        ((if vr.boot.result then [] else [vr.boot.reason]) ++
         (if vr.deploy.result then [] else [vr.deploy.reason]), none)) ∧
    Node.Validate clientNoImage ⟨nodeN⟩ = (["no image"], none) := by
  refine ⟨fun client node vr hv => ?_, by decide⟩
  simp only [Node.Validate, hv]

/-- Witness for C5, applying the first conjunct at a concrete input where
both Boot and Deploy pass: no failure reasons, no error. -/
theorem validate_failures_spec_witness :
    Node.Validate
      { failAll with nodesValidate := fun _ => .ok ⟨⟨true, ""⟩, ⟨true, ""⟩⟩ }
      ⟨nodeN⟩ = ([], none) :=
  validate_failures_spec.1
    { failAll with nodesValidate := fun _ => .ok ⟨⟨true, ""⟩, ⟨true, ""⟩⟩ }
    ⟨nodeN⟩ ⟨⟨true, ""⟩, ⟨true, ""⟩⟩ rfl

/-- C6: a failure of the remote validation call itself is returned by
Validate unchanged and unwrapped: the error component is exactly the
error the call produced. -/
theorem validate_error_unwrapped (client : ServiceClient) (node : Node)
    (e : GoError) (hv : client.nodesValidate node.node.uuid = .error e) :
    Node.Validate client node = ([], some e) := by
  simp only [Node.Validate, hv]

/-- Witness for C6: a concrete client whose validation call fails with
"connection refused" makes Validate return exactly that error. -/
theorem validate_error_unwrapped_witness :
    Node.Validate clientValidateDown ⟨nodeN⟩ =
      ([], some (.service "connection refused")) :=
  validate_error_unwrapped clientValidateDown ⟨nodeN⟩
    (.service "connection refused") rfl

/-- C7: HasPorts pages over the ports filtered by the node's UUID and
checks emptiness: zero registered ports give (false, nil), one or more
give (true, nil), and a failure of the paging or of the emptiness check is
returned wrapped.  The extractPorts hypotheses tie the page handle to the
node's actual port list. -/
theorem hasPorts_spec :
    (∀ (client : ServiceClient) (node : Node) (pages : PagerPages),
      client.portsAllPagesByNodeUUID node.node.uuid = .ok pages →
      client.extractPorts pages = .ok [] →
      client.pagesIsEmpty pages = .ok true →
      Node.HasPorts client node = (false, none)) ∧
    (∀ (client : ServiceClient) (node : Node) (pages : PagerPages)
        (p : Port) (ps : List Port),
      client.portsAllPagesByNodeUUID node.node.uuid = .ok pages →
      client.extractPorts pages = .ok (p :: ps) →
      client.pagesIsEmpty pages = .ok false →
      Node.HasPorts client node = (true, none)) ∧
    (∀ (client : ServiceClient) (node : Node) (e : GoError),
      client.portsAllPagesByNodeUUID node.node.uuid = .error e →
      Node.HasPorts client node =
        (false, some (.wrapped "failed to page over list of ports" e))) ∧
    (∀ (client : ServiceClient) (node : Node) (pages : PagerPages)
        (e : GoError),
      client.portsAllPagesByNodeUUID node.node.uuid = .ok pages →
      client.pagesIsEmpty pages = .error e →
      Node.HasPorts client node =
        (false, some (.wrapped "failed to check port list status" e))) := by
  refine ⟨fun client node pages hp hx hie => ?_,
    fun client node pages p ps hp hx hie => ?_,
    fun client node e hp => ?_, fun client node pages e hp hie => ?_⟩
  · simp only [Node.HasPorts, hp, hie, reduceIte]
  · simp [Node.HasPorts, hp, hie]
  · simp only [Node.HasPorts, hp]
  · simp only [Node.HasPorts, hp, hie]

/-- Witness for C7: node "uuid-b" has zero registered ports, so HasPorts
answers (false, nil); node "uuid-n" has one, so HasPorts answers
(true, nil). -/
theorem hasPorts_spec_witness :
    Node.HasPorts clientPorts ⟨nodeB⟩ = (false, none) ∧
    Node.HasPorts clientPorts ⟨nodeN⟩ = (true, none) :=
  ⟨hasPorts_spec.1 clientPorts ⟨nodeB⟩ 2 rfl rfl rfl,
   hasPorts_spec.2.1 clientPorts ⟨nodeN⟩ 1 ⟨"uuid-n", "52:54:00:aa:bb:cc"⟩
     [] rfl rfl rfl⟩

/-- C8: for every subscription and every old object, the Update admission
hook returns exactly the fixed non-nil immutability error, and the Delete
admission hook returns no error. -/
theorem subscription_update_delete_spec (s : BMCEventSubscription)
    (old : RuntimeObject) :
    BMCEventSubscription.ValidateUpdate s old =
      some (.errorf "subscriptions cannot be updated, please recreate it") ∧
    BMCEventSubscription.ValidateDelete s = none :=
  ⟨rfl, rfl⟩

/-- C9: when the port query by MAC succeeds with a port whose owning-node
ID the node lookup then reports as 404, FindNodeByMAC returns an empty
result with no error, exactly as for an unregistered MAC. -/
theorem findNodeByMAC_stale_port (client : ServiceClient) (mac : String)
    (pages : PagerPages) (p : Port) (ps : List Port)
    (hp : client.portsAllPagesByAddress mac = .ok pages)
    (hx : client.extractPorts pages = .ok (p :: ps))
    (hu : p.nodeUUID ≠ "")
    (hg : client.nodesGet p.nodeUUID = .notFound) :
    FindNodeByMAC client mac = ((none, none), [p.nodeUUID]) := by
  simp only [FindNodeByMAC, findNodeIDByMAC, hp, hx, Option.isSome_none,
    Bool.or_false]
  simp [hu, GetNode, hg]

/-- Witness for C9: the MAC resolves to a port owned by "uuid-gone", the
node lookup for "uuid-gone" reports 404, and FindNodeByMAC answers with an
empty result and no error. -/
theorem findNodeByMAC_stale_port_witness :
    FindNodeByMAC clientStalePort "52:54:00:aa:bb:cc" =
      ((none, none), ["uuid-gone"]) :=
  findNodeByMAC_stale_port clientStalePort "52:54:00:aa:bb:cc" 0
    ⟨"uuid-gone", "52:54:00:aa:bb:cc"⟩ [] rfl rfl (by decide) rfl

/-- C10: whenever Validate returns a non-nil error, the failures list it
returns is empty: no partial failure reasons accompany an error. -/
theorem validate_no_partial_failures (client : ServiceClient) (node : Node)
    (he : (Node.Validate client node).2 ≠ none) :
    (Node.Validate client node).1 = [] := by
  revert he
  unfold Node.Validate
  cases client.nodesValidate node.node.uuid with
  | error e => intro _; rfl
  | ok vr => intro he; exact absurd rfl he

/-- Witness for C10: at a client whose validation call fails, the error is
non-nil and the failures list is empty. -/
theorem validate_no_partial_failures_witness :
    (Node.Validate clientValidateDown ⟨nodeN⟩).1 = [] :=
  validate_no_partial_failures clientValidateDown ⟨nodeN⟩ (by decide)

end BaremetalOperator
